import Mathlib

/-!
Shallow embedding of the notification subsystem of the College_Media backend:
the `NotificationPreferences` and `Notification` Mongoose models, the
`NotificationDispatcher`, the push-notification service, the email digest
scheduler, and the preferences-update controller, together with theorems
settling the specification claims about them.

Machine times are modelled as minutes (for clock arithmetic) or abstract
`Nat` instants; database documents are Lean structures; Mongo queries are
decidable predicates over lists of documents.
-/

namespace CollegeMedia

/-! ### Data model: NotificationPreferences (src/backend/models/NotificationPreferences.js) -/

/-- The delivery channels of the `channels` sub-document of the preferences schema. -/
inductive Channel
  | email | push | inApp | sms
deriving DecidableEq, Repr

/-- The notification categories of the `categories` sub-document. -/
inductive Category
  | social | content | messaging | events | system | marketing
deriving DecidableEq, Repr

/-- Per-channel settings: `enabled`, plus the optional `address` (email)
and `phoneNumber` (sms) override strings of the schema. -/
structure ChannelPref where
  enabled : Bool
  address : Option String := none
  phoneNumber : Option String := none
deriving DecidableEq, Repr

/-- The `digest.frequency` enum: 'daily' | 'weekly' | 'never'. -/
inductive Frequency
  | daily | weekly | never
deriving DecidableEq, Repr

/-- The `digest` sub-document: frequency, HH:mm time string, day of week. -/
structure DigestSettings where
  frequency : Frequency
  time : String := "09:00"
  dayOfWeek : Nat := 1
deriving DecidableEq, Repr

/-- A Web Push subscription entry of the `pushSubscriptions` array
(`endpoint` plus the `keys` used by web-push). -/
structure PushSubscription where
  endpoint : String
  p256dh : Option String := none
  auth : Option String := none
deriving DecidableEq, Repr

/-- The `quietHours` sub-document: enabled flag and HH:mm window strings. -/
structure QuietHoursSettings where
  enabled : Bool
  startTime : String := "22:00"
  endTime : String := "08:00"
  timezone : String := "UTC"
deriving DecidableEq, Repr

/-- A `NotificationPreferences` document. `channels` maps each channel to
its settings; `categories cat ch` is the category-specific override for a
channel (`none` models the JS `undefined`, e.g. no sms key exists under any
category in the schema). -/
structure Preferences where
  channels : Channel → ChannelPref
  categories : Category → Channel → Option Bool
  digest : DigestSettings
  pushSubscriptions : List PushSubscription
  quietHours : QuietHoursSettings

/-- Embeds `notificationPreferencesSchema.methods.shouldSend(channel, category)`:
false when the master channel switch is off; otherwise the category-specific
override when it is defined, else true. -/
def shouldSend (p : Preferences) (channel : Channel) (category : Category) : Bool :=
  if !(p.channels channel).enabled then false
  else
    match p.categories category channel with
    | some b => b
    | none => true

/-- Splits a character list on a separator, mirroring JS `String.split`:
`splitCharsOn sep cs` returns the (possibly empty) chunks between
occurrences of `sep`. -/
def splitCharsOn (sep : Char) : List Char → List (List Char)
  | [] => [[]]
  | c :: cs =>
    let rest := splitCharsOn sep cs
    if c = sep then [] :: rest
    else
      match rest with
      | r :: rs => (c :: r) :: rs
      | [] => [[c]]

/-- The numeric value of a decimal digit character, `none` otherwise. -/
def charDigit (c : Char) : Option Nat :=
  if '0' ≤ c ∧ c ≤ '9' then some (c.toNat - Char.toNat '0') else none

/-- Parses a non-empty all-digit character list as a decimal number
(the defined case of the JS `Number(...)` conversion on HH/mm parts). -/
def digitsToNat : List Char → Option Nat
  | [] => none
  | cs => cs.foldl (fun acc c => do
      let a ← acc
      let d ← charDigit c
      pure (a * 10 + d)) (some 0)

/-- Mirrors `split(':').map(Number)` destructured to `[hour, minute]`, then
`hour * 60 + minute`: converts an HH:mm string to minutes since midnight.
Extra `:`-components are ignored, as in the JS destructuring; on
well-formed HH:mm strings this agrees with the JS computation (malformed
parts, NaN in JS, default to 0 here). -/
def timeToMinutes (s : String) : Nat :=
  match splitCharsOn ':' s.data with
  | h :: m :: _ => ((digitsToNat h).getD 0) * 60 + ((digitsToNat m).getD 0)
  | _ => 0

/-- Embeds `notificationPreferencesSchema.methods.isInQuietHours()`. The JS method
reads the wall clock (`new Date()`, UTC hours/minutes); here the current
time is the explicit parameter `now`, in minutes since midnight UTC. -/
def isInQuietHours (p : Preferences) (now : Nat) : Bool :=
  if !p.quietHours.enabled then false
  else
    let startTime := timeToMinutes p.quietHours.startTime
    let endTime := timeToMinutes p.quietHours.endTime
    if startTime < endTime then
      decide (startTime ≤ now ∧ now < endTime)
    else
      decide (now ≥ startTime ∨ now < endTime)

/-- A concrete preferences document used to instantiate witnesses: quiet
hours enabled over the schema-default 22:00–08:00 window. -/
def wrapPrefs : Preferences :=
  { channels := fun _ => { enabled := true }
    categories := fun _ _ => none
    digest := { frequency := .daily }
    pushSubscriptions := []
    quietHours := { enabled := true, startTime := "22:00", endTime := "08:00" } }

/-- Like `wrapPrefs` but with a non-wrapping 09:00–17:00 quiet window. -/
def dayPrefs : Preferences :=
  { wrapPrefs with quietHours := { enabled := true, startTime := "09:00", endTime := "17:00" } }

/-- Like `wrapPrefs` but with quiet hours disabled. -/
def quietOffPrefs : Preferences :=
  { wrapPrefs with quietHours := { enabled := false } }

/-- C1: `isInQuietHours` returns false when quiet hours are disabled;
otherwise, with start, end and now in minutes since midnight, it returns
true iff `start ≤ now < end` when `start < end`, and `now ≥ start ∨ now < end`
when `start ≥ end` (window wrapping midnight); and the concrete examples:
22:00–08:00 is true at 23:00 and 03:00, false at 12:00; 09:00–17:00 is true
at 10:00, false at 08:59 and at exactly 17:00. -/
theorem isInQuietHours_spec (p : Preferences) (now : Nat) :
    (p.quietHours.enabled = false → isInQuietHours p now = false) ∧
    (p.quietHours.enabled = true →
      (isInQuietHours p now = true ↔
        (let s := timeToMinutes p.quietHours.startTime
         let e := timeToMinutes p.quietHours.endTime
         if s < e then s ≤ now ∧ now < e else now ≥ s ∨ now < e))) ∧
    (isInQuietHours wrapPrefs (23 * 60) = true ∧
     isInQuietHours wrapPrefs (3 * 60) = true ∧
     isInQuietHours wrapPrefs (12 * 60) = false ∧
     isInQuietHours dayPrefs (10 * 60) = true ∧
     isInQuietHours dayPrefs (8 * 60 + 59) = false ∧
     isInQuietHours dayPrefs (17 * 60) = false) := by
  refine ⟨fun h => ?_, fun h => ?_, by decide⟩
  · simp [isInQuietHours, h]
  · simp only [isInQuietHours, h, Bool.not_true, Bool.false_eq_true, if_false]
    split
    · simp [decide_eq_true_iff]
    · simp [decide_eq_true_iff]

/-- Witness for C1: instantiates `isInQuietHours_spec` at concrete
preferences and times, discharging each hypothesis. -/
theorem isInQuietHours_spec_witness :
    isInQuietHours quietOffPrefs 720 = false ∧
    (isInQuietHours wrapPrefs 1380 = true ↔
      (let s := timeToMinutes wrapPrefs.quietHours.startTime
       let e := timeToMinutes wrapPrefs.quietHours.endTime
       if s < e then s ≤ 1380 ∧ 1380 < e else 1380 ≥ s ∨ 1380 < e)) :=
  ⟨(isInQuietHours_spec quietOffPrefs 720).1 rfl,
   (isInQuietHours_spec wrapPrefs 1380).2.1 rfl⟩

/-- C2: `shouldSend` is false whenever the master channel switch is off,
regardless of the override; when the master switch is on it returns the
category override for that channel when one exists and true otherwise, so
an override can never enable a channel whose master switch is off. -/
theorem shouldSend_spec (p : Preferences) (ch : Channel) (cat : Category) :
    ((p.channels ch).enabled = false → shouldSend p ch cat = false) ∧
    ((p.channels ch).enabled = true →
      (∀ b : Bool, p.categories cat ch = some b → shouldSend p ch cat = b) ∧
      (p.categories cat ch = none → shouldSend p ch cat = true)) := by
  refine ⟨fun h => ?_, fun h => ⟨fun b hb => ?_, fun hn => ?_⟩⟩
  · simp [shouldSend, h]
  · simp [shouldSend, h, hb]
  · simp [shouldSend, h, hn]

/-- A concrete preferences document with the push master switch off but a
push override of true for the social category. -/
def pushOffPrefs : Preferences :=
  { wrapPrefs with
    channels := fun c => if c = .push then { enabled := false } else { enabled := true }
    categories := fun c ch => if c = .social ∧ ch = .push then some true else none }

/-- Witness for C2: a true override cannot override a disabled master
switch; with the master switch on, no override means true. -/
theorem shouldSend_spec_witness :
    shouldSend pushOffPrefs .push .social = false ∧
    shouldSend pushOffPrefs .email .marketing = true :=
  ⟨(shouldSend_spec pushOffPrefs .push .social).1 (by decide),
   ((shouldSend_spec pushOffPrefs .email .marketing).2 (by decide)).2 (by decide)⟩

/-! ### Data model: Notification (src/backend/models/Notification.js) -/

/-- The `priority` enum of the notification schema. -/
inductive Priority
  | low | normal | high | urgent
deriving DecidableEq, Repr

/-- The `status` enum of the notification schema. -/
inductive Status
  | pending | sent | delivered | read | failed
deriving DecidableEq, Repr

/-- Per-channel delivery bookkeeping of the `channels` sub-document
(`delivered`, `deliveredAt`; the email entry also has `includeInDigest`). -/
structure ChannelDelivery where
  delivered : Bool := false
  deliveredAt : Option Nat := none
deriving DecidableEq, Repr

/-- The email entry of the notification's `channels` sub-document. -/
structure EmailDelivery where
  delivered : Bool := false
  deliveredAt : Option Nat := none
  includeInDigest : Bool := true
deriving DecidableEq, Repr

/-- The notification's `channels` sub-document. -/
structure NotificationChannels where
  inApp : ChannelDelivery := {}
  push : ChannelDelivery := {}
  email : EmailDelivery := {}
deriving DecidableEq, Repr

/-- A `Notification` document, restricted to the fields the verified
operations read or write. Instants (`readAt`, `createdAt`, ...) are
abstract `Nat` timestamps and ids are `Nat`. -/
structure NotificationRecord where
  id : Nat := 0
  recipient : Nat
  type_ : String
  category : Category
  priority : Priority := .normal
  channels : NotificationChannels := {}
  status : Status := .pending
  read : Bool := false
  readAt : Option Nat := none
  clicked : Bool := false
  clickedAt : Option Nat := none
  expiresAt : Option Nat := none
  createdAt : Nat := 0
deriving DecidableEq, Repr

/-- Embeds `notificationSchema.methods.markAsRead()`: sets `read`, `readAt` and
`status`. `now` is the wall clock read by `new Date()`. -/
def markAsRead (n : NotificationRecord) (now : Nat) : NotificationRecord :=
  { n with read := true, readAt := some now, status := .read }

/-- Embeds `notificationSchema.methods.markAsClicked()`: sets `clicked` and
`clickedAt` unconditionally, and additionally `read`/`readAt` when the
record was unread. `now` is the wall clock read by `new Date()`. -/
def markAsClicked (n : NotificationRecord) (now : Nat) : NotificationRecord :=
  let n' := { n with clicked := true, clickedAt := some now }
  if !n'.read then { n' with read := true, readAt := some now } else n'

/-- The three keys of the notification's `channels` sub-document. -/
inductive DeliveryChannel
  | inApp | push | email
deriving DecidableEq, Repr

/-- Embeds `notificationSchema.methods.markChannelDelivered(channel)`: marks the
channel delivered with a timestamp, then promotes `status` from `pending`
to `delivered` when some channel is delivered. -/
def markChannelDelivered (n : NotificationRecord) (ch : DeliveryChannel) (now : Nat) :
    NotificationRecord :=
  let chans :=
    match ch with
    | .inApp => { n.channels with inApp := { delivered := true, deliveredAt := some now } }
    | .push => { n.channels with push := { delivered := true, deliveredAt := some now } }
    | .email => { n.channels with email :=
        { n.channels.email with delivered := true, deliveredAt := some now } }
  let allDelivered :=
    chans.inApp.delivered || chans.push.delivered || chans.email.delivered
  let status := if allDelivered ∧ n.status = .pending then Status.delivered else n.status
  { n with channels := chans, status := status }

/-! ### NotificationDispatcher.send (src/backend/services/notificationDispatcher.js,
second part of src/backend/circuitBreaker.js) -/

/-- The per-channel decision object computed at step 3 of `send`. -/
structure ChannelDecision where
  inApp : Bool
  push : Bool
  email : Bool
deriving DecidableEq, Repr

/-- Step 3 of `Dispatcher.send`: each channel's decision comes from the
user's preferences. -/
def computeChannels (p : Preferences) (cat : Category) : ChannelDecision :=
  { inApp := shouldSend p .inApp cat
    push := shouldSend p .push cat
    email := shouldSend p .email cat }

/-- Step 4 of `Dispatcher.send` (the quiet-hours gate): force `push` to
false when it was true, quiet hours are active, and the priority is not
urgent. -/
def applyQuietHoursGate (p : Preferences) (c : ChannelDecision) (prio : Priority)
    (now : Nat) : ChannelDecision :=
  if c.push && isInQuietHours p now && !(prio = .urgent) then { c with push := false } else c

/-- Steps 2–8 of `Dispatcher.send`, as a pure function from the
preferences, the notification's category/priority/expiry, whether the
recipient's socket is online, and the dispatch instant `now` (in minutes
since midnight UTC, used both for the quiet-hours check and as the
`new Date()` timestamps), to the channel decisions and the notification
record that is saved. The asynchronous push delivery of step 6 runs after
`save` and is modelled separately (`sendToUser`). -/
def dispatchSend (p : Preferences) (cat : Category) (prio : Priority)
    (expiresAt : Option Nat) (online : Bool) (now : Nat) :
    ChannelDecision × NotificationRecord :=
  let c0 := computeChannels p cat
  let c := applyQuietHoursGate p c0 prio now
  let n0 : NotificationRecord :=
    { recipient := 0, type_ := "", category := cat, priority := prio
      expiresAt := expiresAt, createdAt := now }
  let n1 := if c.inApp && online then markChannelDelivered n0 .inApp now else n0
  let n2 :=
    if c.email then
      if p.digest.frequency = .never || prio = .urgent then
        let nd := markChannelDelivered n1 .email now
        { nd with channels := { nd.channels with email :=
            { nd.channels.email with includeInDigest := false } } }
      else
        { n1 with channels := { n1.channels with email :=
            { n1.channels.email with includeInDigest := true } } }
    else
      { n1 with channels := { n1.channels with email :=
          { n1.channels.email with includeInDigest := false } } }
  (c, n2)

/-- C3: the quiet-hours gate flips `push` from true to false exactly when
the preference-computed push decision is true, quiet hours are active, and
the priority is not urgent; an urgent dispatch keeps its push decision even
in quiet hours; the gate never changes `inApp` or `email`. -/
theorem quietHoursGate_spec (p : Preferences) (cat : Category) (prio : Priority)
    (now : Nat) :
    (((applyQuietHoursGate p (computeChannels p cat) prio now).push = false ∧
        (computeChannels p cat).push = true) ↔
      ((computeChannels p cat).push = true ∧ isInQuietHours p now = true ∧
        prio ≠ .urgent)) ∧
    (prio = .urgent →
      (applyQuietHoursGate p (computeChannels p cat) prio now).push =
        (computeChannels p cat).push) ∧
    (applyQuietHoursGate p (computeChannels p cat) prio now).inApp =
      (computeChannels p cat).inApp ∧
    (applyQuietHoursGate p (computeChannels p cat) prio now).email =
      (computeChannels p cat).email := by
  cases hb : (computeChannels p cat).push <;>
    cases hq : isInQuietHours p now <;>
      cases prio <;>
        simp_all [applyQuietHoursGate]

/-- Witness for C3: an urgent notification during active quiet hours (23:00
inside the wrapping 22:00–08:00 window) keeps its push decision. -/
theorem quietHoursGate_spec_witness :
    (applyQuietHoursGate wrapPrefs (computeChannels wrapPrefs .social) .urgent 1380).push =
      (computeChannels wrapPrefs .social).push :=
  (quietHoursGate_spec wrapPrefs .social .urgent 1380).2.1 rfl

/-- C4: in the record `Dispatcher.send` persists, an enabled email channel
with `digest.frequency = never` or urgent priority yields
`email.delivered = true` and `email.includeInDigest = false`; an enabled
email channel with neither condition yields `email.delivered = false` and
`email.includeInDigest = true`; a disabled email channel yields
`email.includeInDigest = false`. -/
theorem dispatchEmail_spec (p : Preferences) (cat : Category) (prio : Priority)
    (expiresAt : Option Nat) (online : Bool) (now : Nat) :
    (((dispatchSend p cat prio expiresAt online now).1.email = true ∧
        (p.digest.frequency = .never ∨ prio = .urgent)) →
      (dispatchSend p cat prio expiresAt online now).2.channels.email.delivered = true ∧
      (dispatchSend p cat prio expiresAt online now).2.channels.email.includeInDigest = false) ∧
    (((dispatchSend p cat prio expiresAt online now).1.email = true ∧
        p.digest.frequency ≠ .never ∧ prio ≠ .urgent) →
      (dispatchSend p cat prio expiresAt online now).2.channels.email.delivered = false ∧
      (dispatchSend p cat prio expiresAt online now).2.channels.email.includeInDigest = true) ∧
    ((dispatchSend p cat prio expiresAt online now).1.email = false →
      (dispatchSend p cat prio expiresAt online now).2.channels.email.includeInDigest = false) := by
  cases he : (applyQuietHoursGate p (computeChannels p cat) prio now).email <;>
    cases hf : p.digest.frequency <;>
      cases prio <;>
        simp_all [dispatchSend, markChannelDelivered]
  all_goals (split <;> simp)

/-- Witness for C4: with email enabled and `digest.frequency = never`, the
saved record is immediately delivered and excluded from digests; with the
default daily digest and normal priority the record stays undelivered and
digest-eligible. -/
theorem dispatchEmail_spec_witness :
    ((dispatchSend { wrapPrefs with digest := { frequency := .never } }
        .social .normal none false 720).2.channels.email.delivered = true ∧
     (dispatchSend { wrapPrefs with digest := { frequency := .never } }
        .social .normal none false 720).2.channels.email.includeInDigest = false) ∧
    ((dispatchSend wrapPrefs .social .normal none false 720).2.channels.email.delivered = false ∧
     (dispatchSend wrapPrefs .social .normal none false 720).2.channels.email.includeInDigest = true) :=
  ⟨(dispatchEmail_spec { wrapPrefs with digest := { frequency := .never } }
      .social .normal none false 720).1 ⟨by decide, Or.inl rfl⟩,
   (dispatchEmail_spec wrapPrefs .social .normal none false 720).2.1
      ⟨by decide, by decide, by decide⟩⟩

/-! ### Email digest scheduler (src/backend/services/emailDigestScheduler.js,
second part of src/backend/services/emailDigestService.js, and
`Notification.getDigestNotifications` of src/backend/models/Notification.js) -/

/-- The Mongo query of `Notification.getDigestNotifications(userId, since)`:
recipient matches, `channels.email.includeInDigest` is true,
`channels.email.delivered` is false, and `createdAt ≥ since`. -/
def digestQueryMatches (userId since : Nat) (n : NotificationRecord) : Bool :=
  n.recipient = userId && n.channels.email.includeInDigest &&
    !n.channels.email.delivered && since ≤ n.createdAt

/-- Embeds `Notification.getDigestNotifications(userId, since)` over a store of
notification documents (the descending `createdAt` sort and the sender
populate only affect presentation and are omitted). -/
def getDigestNotifications (recs : List NotificationRecord) (userId since : Nat) :
    List NotificationRecord :=
  recs.filter (digestQueryMatches userId since)

/-- The `$set` of the scheduler's `Notification.updateMany` batch update:
records whose id is among the included ids get
`channels.email.delivered = true` and `channels.email.deliveredAt = now`. -/
def markDigestDelivered (ids : List Nat) (now : Nat) (r : NotificationRecord) :
    NotificationRecord :=
  if r.id ∈ ids then
    { r with channels := { r.channels with email :=
        { r.channels.email with delivered := true, deliveredAt := some now } } }
  else r

/-- Embeds `DigestScheduler.sendDigestForUser(user, frequency)` acting on the
notification store: fetch the pending digest records, attempt the send when
there are any (`sendSucceeds` is the boolean result of
`emailDigestService.sendDigest`), and only on success apply the batch
update. Returns the updated store and the ids of the records included in a
successfully sent digest (`[]` when nothing was sent). -/
def sendDigestForUser (recs : List NotificationRecord) (userId since now : Nat)
    (sendSucceeds : Bool) : List NotificationRecord × List Nat :=
  let ns := getDigestNotifications recs userId since
  if 0 < ns.length then
    if sendSucceeds then
      let ids := ns.map (fun n => n.id)
      (recs.map (markDigestDelivered ids now), ids)
    else (recs, [])
  else (recs, [])

lemma markDigestDelivered_id (ids : List Nat) (now : Nat) (r : NotificationRecord) :
    (markDigestDelivered ids now r).id = r.id := by
  unfold markDigestDelivered
  split <;> rfl

lemma markDigestDelivered_mem_delivered (ids : List Nat) (now : Nat)
    (r : NotificationRecord) (h : r.id ∈ ids) :
    (markDigestDelivered ids now r).channels.email.delivered = true ∧
    (markDigestDelivered ids now r).channels.email.deliveredAt = some now := by
  unfold markDigestDelivered
  simp [h]

lemma digestQueryMatches_not_delivered (userId since : Nat) (n : NotificationRecord)
    (h : digestQueryMatches userId since n = true) :
    n.channels.email.includeInDigest = true ∧ n.channels.email.delivered = false := by
  simp only [digestQueryMatches, Bool.and_eq_true, Bool.not_eq_true'] at h
  exact ⟨h.1.1.2, h.1.2⟩

lemma sendDigestForUser_of_pos (recs : List NotificationRecord) (u s now : Nat)
    (h : 0 < (getDigestNotifications recs u s).length) :
    sendDigestForUser recs u s now true =
      (recs.map (markDigestDelivered
          ((getDigestNotifications recs u s).map (fun n => n.id)) now),
        (getDigestNotifications recs u s).map (fun n => n.id)) := by
  unfold sendDigestForUser
  simp [h]

lemma sendDigestForUser_of_neg (recs : List NotificationRecord) (u s now : Nat)
    (succ : Bool) (h : ¬ 0 < (getDigestNotifications recs u s).length) :
    sendDigestForUser recs u s now succ = (recs, []) := by
  unfold sendDigestForUser
  simp [h]

lemma sendDigestForUser_ids_mem (recs : List NotificationRecord) (u s now : Nat)
    (succ : Bool) (i : Nat) (h : i ∈ (sendDigestForUser recs u s now succ).2) :
    i ∈ (getDigestNotifications recs u s).map (fun n => n.id) := by
  unfold sendDigestForUser at h
  by_cases hl : 0 < (getDigestNotifications recs u s).length
  · cases succ
    · simp [hl] at h
    · simpa [hl] using h
  · simp [hl] at h

/-- C5: the digest run sets `email.delivered` and `email.deliveredAt` for
every included record in one batch update, only after a successful send;
the digest query selects only records with `includeInDigest = true` and
`delivered = false`; a failed send leaves the store unchanged; and a record
included in a successful digest is never included again by a later run. -/
theorem digestRun_spec (recs : List NotificationRecord)
    (u s now u₂ s₂ now₂ : Nat) (succ₂ : Bool) :
    (∀ r ∈ getDigestNotifications recs u s,
      r.channels.email.includeInDigest = true ∧ r.channels.email.delivered = false) ∧
    (∀ r ∈ (sendDigestForUser recs u s now true).1,
      r.id ∈ (sendDigestForUser recs u s now true).2 →
        r.channels.email.delivered = true ∧
        r.channels.email.deliveredAt = some now) ∧
    sendDigestForUser recs u s now false = (recs, []) ∧
    (∀ i ∈ (sendDigestForUser recs u s now true).2,
      i ∉ (sendDigestForUser (sendDigestForUser recs u s now true).1 u₂ s₂ now₂ succ₂).2) := by
  have hsel : ∀ r ∈ getDigestNotifications recs u s,
      r.channels.email.includeInDigest = true ∧ r.channels.email.delivered = false := by
    intro r hr
    exact digestQueryMatches_not_delivered u s r (List.of_mem_filter hr)
  have hmark : ∀ rs : List NotificationRecord, ∀ ids : List Nat, ∀ t : Nat,
      ∀ r ∈ rs.map (markDigestDelivered ids t), r.id ∈ ids →
        r.channels.email.delivered = true ∧ r.channels.email.deliveredAt = some t := by
    intro rs ids t r hr hid
    rcases List.mem_map.mp hr with ⟨r₀, _, rfl⟩
    rw [markDigestDelivered_id] at hid
    exact markDigestDelivered_mem_delivered ids t r₀ hid
  refine ⟨hsel, ?_, ?_, ?_⟩
  · intro r hr hid
    by_cases hlen : 0 < (getDigestNotifications recs u s).length
    · rw [sendDigestForUser_of_pos recs u s now hlen] at hr hid
      exact hmark recs _ now r hr hid
    · rw [sendDigestForUser_of_neg recs u s now true hlen] at hid
      exact absurd hid (List.not_mem_nil r.id)
  · simp [sendDigestForUser]
  · intro i hi hi₂
    by_cases hlen : 0 < (getDigestNotifications recs u s).length
    · have hids := sendDigestForUser_ids_mem recs u s now true i hi
      have hids₂ := sendDigestForUser_ids_mem
        (sendDigestForUser recs u s now true).1 u₂ s₂ now₂ succ₂ i hi₂
      rcases List.mem_map.mp hids₂ with ⟨r, hrq, rfl⟩
      have hdel : r.channels.email.delivered = false :=
        (digestQueryMatches_not_delivered u₂ s₂ r (List.of_mem_filter hrq)).2
      have hrmem : r ∈ (sendDigestForUser recs u s now true).1 :=
        List.mem_of_mem_filter hrq
      rw [sendDigestForUser_of_pos recs u s now hlen] at hrmem hi
      have := hmark recs _ now r hrmem hi
      rw [this.1] at hdel
      exact absurd hdel (by simp)
    · rw [sendDigestForUser_of_neg recs u s now true hlen] at hi
      exact absurd hi (List.not_mem_nil i)

/-- A concrete digest-eligible notification record for the C5 witness. -/
def pendingDigestRec : NotificationRecord :=
  { recipient := 7, type_ := "like", category := .social, createdAt := 5 }

/-- Witness for C5: a store with one pending digest record (id 0); the
first successful daily run includes it and marks it delivered, and a
second successful run does not include it again. -/
theorem digestRun_spec_witness :
    pendingDigestRec.channels.email.includeInDigest = true ∧
    0 ∈ (sendDigestForUser [pendingDigestRec] 7 0 10 true).2 ∧
    0 ∉ (sendDigestForUser (sendDigestForUser [pendingDigestRec] 7 0 10 true).1
        7 0 34 true).2 :=
  ⟨((digestRun_spec [pendingDigestRec] 7 0 10 7 0 34 true).1
      pendingDigestRec (by decide)).1,
   by decide,
   (digestRun_spec [pendingDigestRec] 7 0 10 7 0 34 true).2.2.2 0 (by decide)⟩

/-! ### Push notification service (src/backend/services/pushNotificationService.js) -/

/-- The outcome `webpush.sendNotification` produces for one endpoint:
fulfilment, or a rejection carrying an HTTP status code. -/
inductive PushOutcome
  | success
  | failure (statusCode : Nat)
deriving DecidableEq, Repr

/-- The object `sendToUser` resolves with. `deliveredTo` and `total` are
absent (`none`) in the early not-configured return, which instead carries
`error`. -/
structure PushSendResult where
  success : Bool
  deliveredTo : Option Nat := none
  total : Option Nat := none
  error : Option String := none
deriving DecidableEq, Repr

/-- The `error.statusCode === 410 || error.statusCode === 404`
classification: an outcome that queues the endpoint for pruning. -/
def invalidStatus (o : PushOutcome) : Bool :=
  match o with
  | .success => false
  | .failure c => c = 410 || c = 404

/-- Embeds `removeInvalidSubscriptions(preferenceId, endpoints)`: the Mongo
`$pull` keeps exactly the subscriptions whose endpoint is not in
`endpoints`. -/
def removeInvalidSubscriptions (subs : List PushSubscription)
    (endpoints : List String) : List PushSubscription :=
  subs.filter (fun s => decide (s.endpoint ∉ endpoints))

/-- Embeds `pushNotificationService.sendToUser(userPreferences, notification)`:
returns early when VAPID keys were not configured; otherwise attempts
every subscription (each send is wrapped in its own try/catch, so one
failure never aborts the rest), collects 404/410 failures as invalid
endpoints, prunes them when there are any, and reports
`success`/`deliveredTo`/`total`. `outcome` gives each endpoint's webpush
result. Returns the result object, the list of endpoints attempted, and
the user's subscription list after pruning. -/
def sendToUser (configured : Bool) (subs : List PushSubscription)
    (outcome : String → PushOutcome) :
    PushSendResult × List String × List PushSubscription :=
  if !configured then
    ({ success := false, error := some "Not configured" }, [], subs)
  else
    let successCount :=
      (subs.filter (fun s => decide (outcome s.endpoint = .success))).length
    let invalidEndpoints :=
      (subs.filter (fun s => invalidStatus (outcome s.endpoint))).map
        (fun s => s.endpoint)
    let remaining :=
      if 0 < invalidEndpoints.length then
        removeInvalidSubscriptions subs invalidEndpoints
      else subs
    ({ success := decide (0 < successCount), deliveredTo := some successCount,
       total := some subs.length },
      subs.map (fun s => s.endpoint), remaining)

/-- C6: with the service configured, `sendToUser` attempts every
registered endpoint, succeeds iff some endpoint succeeded, reports
`deliveredTo` as the number of successful endpoints and `total` as the
number of registered subscriptions, and (when the registered endpoints are
distinct) keeps a subscription iff its outcome was not a 404/410
failure. -/
theorem sendToUser_spec (subs : List PushSubscription)
    (outcome : String → PushOutcome)
    (hnd : (subs.map (fun s => s.endpoint)).Nodup) :
    (sendToUser true subs outcome).2.1 = subs.map (fun s => s.endpoint) ∧
    ((sendToUser true subs outcome).1.success = true ↔
      ∃ s ∈ subs, outcome s.endpoint = .success) ∧
    (sendToUser true subs outcome).1.deliveredTo =
      some (subs.countP (fun s => decide (outcome s.endpoint = .success))) ∧
    (sendToUser true subs outcome).1.total = some subs.length ∧
    (∀ s ∈ subs,
      (s ∈ (sendToUser true subs outcome).2.2 ↔
        invalidStatus (outcome s.endpoint) = false)) ∧
    (∀ s ∈ (sendToUser true subs outcome).2.2, s ∈ subs) := by
  refine ⟨rfl, ?_, ?_, rfl, ?_, ?_⟩
  · simp only [sendToUser, Bool.not_true, Bool.false_eq_true, if_false,
      decide_eq_true_iff]
    constructor
    · intro h
      rcases List.length_pos.mp h with _
      have : (subs.filter (fun s => decide (outcome s.endpoint = .success))) ≠ [] :=
        List.ne_nil_of_length_pos h
      rcases List.exists_mem_of_ne_nil _ this with ⟨s, hs⟩
      exact ⟨s, List.mem_of_mem_filter hs, by
        have := List.of_mem_filter hs
        simpa using this⟩
    · rintro ⟨s, hs, ho⟩
      apply List.length_pos.mpr
      intro hempty
      have : s ∈ subs.filter (fun s => decide (outcome s.endpoint = .success)) :=
        List.mem_filter.mpr ⟨hs, by simpa using ho⟩
      rw [hempty] at this
      exact absurd this (List.not_mem_nil s)
  · simp [sendToUser, List.countP_eq_length_filter]
  · intro s hs
    simp only [sendToUser, Bool.not_true, Bool.false_eq_true, if_false]
    constructor
    · intro hmem
      by_contra hbad'
      have hbad : invalidStatus (outcome s.endpoint) = true := by
        revert hbad'
        cases invalidStatus (outcome s.endpoint) <;> simp
      by_cases hinv : 0 < ((subs.filter
          (fun t => invalidStatus (outcome t.endpoint))).map (fun t => t.endpoint)).length
      · simp only [hinv, if_true] at hmem
        have := List.of_mem_filter hmem
        rw [decide_eq_true_iff] at this
        exact this (List.mem_map.mpr
          ⟨s, List.mem_filter.mpr ⟨hs, hbad⟩, rfl⟩)
      · simp only [List.length_pos, ne_eq, not_not, List.map_eq_nil_iff,
          List.filter_eq_nil_iff] at hinv
        exact hinv s hs hbad
    · intro hgood
      by_cases hinv : 0 < ((subs.filter
          (fun t => invalidStatus (outcome t.endpoint))).map (fun t => t.endpoint)).length
      · simp only [hinv, if_true]
        refine List.mem_filter.mpr ⟨hs, ?_⟩
        rw [decide_eq_true_iff]
        intro hmem
        rcases List.mem_map.mp hmem with ⟨t, htf, hte⟩
        have htmem := List.mem_of_mem_filter htf
        have hteq : t = s := List.inj_on_of_nodup_map hnd htmem hs hte
        subst hteq
        have := List.of_mem_filter htf
        rw [hgood] at this
        exact absurd this (by simp)
      · simp only [hinv, if_false]
        exact hs
  · intro s hmem
    simp only [sendToUser, Bool.not_true, Bool.false_eq_true, if_false] at hmem
    by_cases hinv : 0 < ((subs.filter
        (fun t => invalidStatus (outcome t.endpoint))).map (fun t => t.endpoint)).length
    · simp only [hinv, if_true] at hmem
      exact List.mem_of_mem_filter hmem
    · simp only [hinv, if_false] at hmem
      exact hmem

/-- Three concrete subscriptions for the C6 witness. -/
def subA : PushSubscription := { endpoint := "a" }

/-- Second concrete subscription for the C6 witness. -/
def subB : PushSubscription := { endpoint := "b" }

/-- Third concrete subscription for the C6 witness. -/
def subC : PushSubscription := { endpoint := "c" }

/-- The webpush outcome map of the C6 witness: endpoint "b" fails with
HTTP 410, the others succeed. -/
def outcomeB410 (e : String) : PushOutcome :=
  if e = "b" then .failure 410 else .success

/-- Witness for C6: three endpoints with one 410 failure give
`deliveredTo = 2`, `total = 3`, and only the 410 endpoint is pruned. -/
theorem sendToUser_spec_witness :
    (sendToUser true [subA, subB, subC] outcomeB410).1.deliveredTo = some 2 ∧
    (sendToUser true [subA, subB, subC] outcomeB410).1.total = some 3 ∧
    (subA ∈ (sendToUser true [subA, subB, subC] outcomeB410).2.2 ↔
      invalidStatus (outcomeB410 subA.endpoint) = false) ∧
    (subB ∈ (sendToUser true [subA, subB, subC] outcomeB410).2.2 ↔
      invalidStatus (outcomeB410 subB.endpoint) = false) :=
  ⟨by decide,
   (sendToUser_spec [subA, subB, subC] outcomeB410 (by decide)).2.2.2.1,
   (sendToUser_spec [subA, subB, subC] outcomeB410 (by decide)).2.2.2.2.1
      subA (by decide),
   (sendToUser_spec [subA, subB, subC] outcomeB410 (by decide)).2.2.2.2.1
      subB (by decide)⟩

/-- C10: with VAPID keys unconfigured, `sendToUser` returns
`{success: false, error: 'Not configured'}` with no `deliveredTo` or
`total`, attempts no endpoint, and prunes no subscription. -/
theorem sendToUser_notConfigured_spec (subs : List PushSubscription)
    (outcome : String → PushOutcome) :
    sendToUser false subs outcome =
      ({ success := false, deliveredTo := none, total := none,
          error := some "Not configured" }, [], subs) := rfl

/-! ### Read/clicked tracking (src/backend/models/Notification.js) -/

/-- A concrete fresh (unread, unclicked) notification record. -/
def unreadRec : NotificationRecord :=
  { recipient := 1, type_ := "like", category := .social }

/-- C7 counterexample: calling `markAsClicked` a second time at a later
instant overwrites `clickedAt` (the method sets `clickedAt = new Date()`
unconditionally), so the second call is not free of side effects on
already-set timestamps as the claim states. -/
theorem markAsClicked_counterexample :
    (markAsClicked (markAsClicked unreadRec 1) 2).clickedAt ≠
      (markAsClicked unreadRec 1).clickedAt := by decide

/-- C7 amended: `markAsClicked` on an unread record sets `read`, `clicked`
and both timestamps to the call instant; a second call raises no error and
leaves `read`, `clicked` and `readAt` unchanged but overwrites `clickedAt`
with the second call's instant; and after `markAsClicked` or `markAsRead`
the record has `read = true`, so `clicked = true` implies `read = true` in
every state these operations produce. -/
theorem markAsClicked_amended_spec (n : NotificationRecord) (t₁ t₂ : Nat) :
    (n.read = false →
      (markAsClicked n t₁).read = true ∧ (markAsClicked n t₁).clicked = true ∧
      (markAsClicked n t₁).readAt = some t₁ ∧
      (markAsClicked n t₁).clickedAt = some t₁) ∧
    ((markAsClicked (markAsClicked n t₁) t₂).read = (markAsClicked n t₁).read ∧
     (markAsClicked (markAsClicked n t₁) t₂).clicked = (markAsClicked n t₁).clicked ∧
     (markAsClicked (markAsClicked n t₁) t₂).readAt = (markAsClicked n t₁).readAt ∧
     (markAsClicked (markAsClicked n t₁) t₂).clickedAt = some t₂) ∧
    (markAsClicked n t₁).clicked = true ∧ (markAsClicked n t₁).read = true ∧
    (markAsRead n t₁).read = true := by
  cases hr : n.read <;> simp [markAsClicked, markAsRead, hr]

/-- Witness for C7 (amended): the concrete unread record, marked clicked at
time 1 and again at time 2. -/
theorem markAsClicked_amended_spec_witness :
    (markAsClicked unreadRec 1).read = true ∧
    (markAsClicked unreadRec 1).clickedAt = some 1 ∧
    (markAsClicked (markAsClicked unreadRec 1) 2).clickedAt = some 2 ∧
    (markAsClicked (markAsClicked unreadRec 1) 2).readAt =
      (markAsClicked unreadRec 1).readAt :=
  ⟨((markAsClicked_amended_spec unreadRec 1 2).1 rfl).1,
   ((markAsClicked_amended_spec unreadRec 1 2).1 rfl).2.2.2,
   (markAsClicked_amended_spec unreadRec 1 2).2.1.2.2.2,
   (markAsClicked_amended_spec unreadRec 1 2).2.1.2.2.1⟩

/-! ### Listing and counting queries (src/backend/models/Notification.js) -/

/-- The `$or` expiry clause shared by `getUnread` and `getAll`:
`expiresAt` does not exist, or `expiresAt > now`. -/
def notExpired (now : Nat) (n : NotificationRecord) : Bool :=
  match n.expiresAt with
  | none => true
  | some e => now < e

/-- The Mongo query object of `Notification.getUnread(userId, options)`:
recipient, `read: false`, the expiry `$or`, and the optional `type`/
`category` filters (an empty `types` array is ignored, as in the JS
guard). -/
def unreadQueryMatches (userId now : Nat) (types : Option (List String))
    (cat : Option Category) (n : NotificationRecord) : Bool :=
  n.recipient = userId && !n.read && notExpired now n &&
    (match types with
     | some ts => if 0 < ts.length then decide (n.type_ ∈ ts) else true
     | none => true) &&
    (match cat with
     | some c => n.category = c
     | none => true)

/-- The Mongo query object of `Notification.getAll(userId, options)`:
recipient, the expiry `$or`, and the optional `category` filter. -/
def allQueryMatches (userId now : Nat) (cat : Option Category)
    (n : NotificationRecord) : Bool :=
  n.recipient = userId && notExpired now n &&
    (match cat with
     | some c => n.category = c
     | none => true)

/-- The Mongo query object of `Notification.getUnreadCount(userId,
category)`: recipient, `read: false`, and the optional `category` filter —
with no expiry clause. -/
def unreadCountQueryMatches (userId : Nat) (cat : Option Category)
    (n : NotificationRecord) : Bool :=
  n.recipient = userId && !n.read &&
    (match cat with
     | some c => n.category = c
     | none => true)

/-- Embeds `Notification.getUnread` over a store (the descending `createdAt`
sort, the `limit`, and the sender populate only reorder, truncate or
decorate the matched set and are omitted). -/
def getUnread (recs : List NotificationRecord) (userId now : Nat)
    (types : Option (List String)) (cat : Option Category) :
    List NotificationRecord :=
  recs.filter (unreadQueryMatches userId now types cat)

/-- Embeds `Notification.getAll` over a store (sort, `skip`/`limit` pagination
and populate omitted as for `getUnread`). -/
def getAll (recs : List NotificationRecord) (userId now : Nat)
    (cat : Option Category) : List NotificationRecord :=
  recs.filter (allQueryMatches userId now cat)

/-- Embeds `Notification.getUnreadCount` (`countDocuments`) over a store. -/
def getUnreadCount (recs : List NotificationRecord) (userId : Nat)
    (cat : Option Category) : Nat :=
  recs.countP (unreadCountQueryMatches userId cat)

/-- An unread notification that expired at instant 5. -/
def expiredUnreadRec : NotificationRecord :=
  { recipient := 4, type_ := "like", category := .social, expiresAt := some 5 }

/-- C8: `getUnread` and `getAll` exclude the expired record, but
`getUnreadCount` still counts it — its query has no expiry clause, so the
unread badge count disagrees with the unread listing on the same store at
the same instant. -/
theorem getUnreadCount_counts_expired :
    getUnread [expiredUnreadRec] 4 10 none none = [] ∧
    getAll [expiredUnreadRec] 4 10 none = [] ∧
    getUnreadCount [expiredUnreadRec] 4 none = 1 ∧
    expiredUnreadRec.expiresAt = some 5 ∧ 5 ≤ 10 := by decide

/-! ### Preferences update endpoint (notificationController.updatePreferences,
src/unnamed/part_002) -/

/-- The schema default for `channels.*.enabled` (email/push/inApp true,
sms false), applied by Mongoose when a replaced channel sub-document omits
the field. -/
def defaultChannelEnabled : Channel → Bool
  | .email => true
  | .push => true
  | .inApp => true
  | .sms => false

/-- The schema default matrix for `categories.*.*` (false for
content.email, marketing.email and marketing.push, true otherwise). -/
def defaultCategoryBool : Category → Channel → Bool
  | .content, .email => false
  | .marketing, .email => false
  | .marketing, .push => false
  | _, _ => true

/-- A JS object literal supplied for one channel inside `updates.channels`
(absent keys are `none`). -/
structure ChannelPatch where
  enabled : Option Bool := none
  address : Option String := none
  phoneNumber : Option String := none
deriving DecidableEq, Repr

/-- A JS object literal supplied for one category inside
`updates.categories`. -/
structure CategoryPatch where
  email : Option Bool := none
  push : Option Bool := none
  inApp : Option Bool := none
deriving DecidableEq, Repr

/-- A JS object literal supplied as `updates.digest` (scalar leaves). -/
structure DigestPatch where
  frequency : Option Frequency := none
  time : Option String := none
  dayOfWeek : Option Nat := none
deriving DecidableEq, Repr

/-- A JS object literal supplied as `updates.quietHours` (scalar leaves). -/
structure QuietHoursPatch where
  enabled : Option Bool := none
  startTime : Option String := none
  endTime : Option String := none
  timezone : Option String := none
deriving DecidableEq, Repr

/-- The request body of `PUT /api/notifications/preferences`: each section
is present or absent. -/
structure PreferencesUpdate where
  channels : Option (Channel → Option ChannelPatch) := none
  categories : Option (Category → Option CategoryPatch) := none
  digest : Option DigestPatch := none
  quietHours : Option QuietHoursPatch := none

/-- The effect of `preferences.channels.email = {...}` (a key copied by
`Object.assign(preferences.channels, updates.channels)`): the whole
channel sub-document is replaced — fields absent from the patch are unset
(schema defaults refill `enabled`), not retained. -/
def assignChannel (c : Channel) (patch : ChannelPatch) : ChannelPref :=
  { enabled := patch.enabled.getD (defaultChannelEnabled c)
    address := patch.address
    phoneNumber := patch.phoneNumber }

/-- Embeds `Object.assign(preferences.channels, updates.channels)`: channels named
in the update are replaced wholesale; the others keep their value. -/
def mergeChannels (old : Channel → ChannelPref)
    (patch : Channel → Option ChannelPatch) : Channel → ChannelPref :=
  fun c =>
    match patch c with
    | none => old c
    | some pc => assignChannel c pc

/-- Replacement of one category sub-document, analogous to
`assignChannel` (no sms key exists under a category). -/
def assignCategory (c : Category) (patch : CategoryPatch) :
    Channel → Option Bool :=
  fun ch =>
    match ch with
    | .email => some (patch.email.getD (defaultCategoryBool c .email))
    | .push => some (patch.push.getD (defaultCategoryBool c .push))
    | .inApp => some (patch.inApp.getD (defaultCategoryBool c .inApp))
    | .sms => none

/-- Embeds `Object.assign(preferences.categories, updates.categories)`. -/
def mergeCategories (old : Category → Channel → Option Bool)
    (patch : Category → Option CategoryPatch) : Category → Channel → Option Bool :=
  fun c =>
    match patch c with
    | none => old c
    | some pc => assignCategory c pc

/-- Embeds `Object.assign(preferences.digest, updates.digest)`: here the leaves
are scalars, so the assignment is a field-wise merge. -/
def mergeDigest (old : DigestSettings) (p : DigestPatch) : DigestSettings :=
  { frequency := p.frequency.getD old.frequency
    time := p.time.getD old.time
    dayOfWeek := p.dayOfWeek.getD old.dayOfWeek }

/-- Embeds `Object.assign(preferences.quietHours, updates.quietHours)`:
field-wise merge of scalar leaves. -/
def mergeQuietHours (old : QuietHoursSettings) (p : QuietHoursPatch) :
    QuietHoursSettings :=
  { enabled := p.enabled.getD old.enabled
    startTime := p.startTime.getD old.startTime
    endTime := p.endTime.getD old.endTime
    timezone := p.timezone.getD old.timezone }

/-- Embeds `notificationController.updatePreferences`: applies each section of the
body with `Object.assign` onto the stored document and saves it;
`pushSubscriptions` is never touched. -/
def updatePreferences (p : Preferences) (u : PreferencesUpdate) : Preferences :=
  { channels :=
      match u.channels with
      | none => p.channels
      | some pc => mergeChannels p.channels pc
    categories :=
      match u.categories with
      | none => p.categories
      | some pc => mergeCategories p.categories pc
    digest :=
      match u.digest with
      | none => p.digest
      | some d => mergeDigest p.digest d
    quietHours :=
      match u.quietHours with
      | none => p.quietHours
      | some q => mergeQuietHours p.quietHours q
    pushSubscriptions := p.pushSubscriptions }

/-- A stored preferences document whose email channel carries an override
address. -/
def addrPrefs : Preferences :=
  { channels := fun c =>
      if c = .email then { enabled := true, address := some "old@example.com" }
      else { enabled := true }
    categories := fun _ _ => none
    digest := { frequency := .daily }
    pushSubscriptions := [subA]
    quietHours := { enabled := false } }

/-- A partial update supplying only `channels.email.enabled`. -/
def emailDisableUpdate : PreferencesUpdate :=
  { channels := some (fun c =>
      if c = .email then some { enabled := some false } else none) }

/-- C9: updating only `channels.email.enabled` replaces the whole
`channels.email` sub-document — the sibling field `channels.email.address`
is dropped, contradicting the claimed (and code-commented) deep
field-merge — while sections absent from the update (`pushSubscriptions`,
`digest`, `quietHours`) are retained. -/
theorem updatePreferences_drops_sibling_field :
    (updatePreferences addrPrefs emailDisableUpdate).channels .email =
      { enabled := false, address := none, phoneNumber := none } ∧
    addrPrefs.channels .email =
      { enabled := true, address := some "old@example.com", phoneNumber := none } ∧
    ((updatePreferences addrPrefs emailDisableUpdate).channels .email).address ≠
      (addrPrefs.channels .email).address ∧
    (updatePreferences addrPrefs emailDisableUpdate).pushSubscriptions =
      addrPrefs.pushSubscriptions ∧
    (updatePreferences addrPrefs emailDisableUpdate).digest = addrPrefs.digest ∧
    (updatePreferences addrPrefs emailDisableUpdate).quietHours =
      addrPrefs.quietHours := by
  refine ⟨rfl, rfl, by decide, rfl, rfl, rfl⟩

end CollegeMedia
